import Mathlib

/-!
Verification of the NYC taxi demand dashboard frontend
(`src/frontend/frontend_modified.py`).

The script has no algorithmic core; the verified parts are:
- the hand-maintained `location_mapping` from LocationID to borough,
- the borough filter / top-10 table / summary statistics pipeline,
- the zone-geometry / prediction left join with zero fill (`create_taxi_map`),
- the branca `LinearColormap` styling (degenerate-domain behaviour),
- the shapefile download-and-extract cache (`load_shape_data_file`),
- the sequential dashboard orchestration with its abort-on-error semantics.

DataFrames are embedded as lists of rows; geometry columns are abstracted
away (no claim mentions them). Machine floats in the source only carry
exact table values here, so they are embedded as rationals. Python
exceptions are embedded as `Except` / `Option` results.
-/

namespace TaxiFrontend

/-- One row of the predictions table returned by `fetch_next_hour_predictions`:
columns `pickup_location_id` and `predicted_demand`. -/
structure PredictionRow where
  pickup_location_id : Int
  predicted_demand : ℚ
deriving DecidableEq, Repr

/-- One row of the taxi-zones shapefile GeoDataFrame: columns `LocationID` and
`zone` (the polygon geometry column is abstracted away, no claim uses it). -/
structure ZoneRow where
  locationID : Int
  zone : String
deriving DecidableEq, Repr

/-- One row of the zones frame after the merge and `fillna(0)` inside
`create_taxi_map`: the zone columns plus a filled `predicted_demand`. -/
structure JoinedRow where
  locationID : Int
  zone : String
  predicted_demand : ℚ
deriving DecidableEq, Repr

/-- The pandas left merge of line 114:
`nyc_zones.merge(prediction_data[[...]], left_on="LocationID",
right_on="pickup_location_id", how="left")`.
Each left (zone) row is paired with every matching prediction row; a zone
with no match yields a single row whose demand is missing (`NaN`, here
`none`). As in pandas, a duplicated right key duplicates the left row. -/
def merge_left (zones : List ZoneRow) (preds : List PredictionRow) :
    List (ZoneRow × Option ℚ) :=
  zones.flatMap fun z =>
    let ms := preds.filter (fun p => decide (p.pickup_location_id = z.locationID))
    if ms = [] then [(z, none)] else ms.map fun p => (z, some p.predicted_demand)

/-- Line 120: `nyc_zones["predicted_demand"].fillna(0)` — missing demands
become `0`. -/
def fillna_zero (rows : List (ZoneRow × Option ℚ)) : List JoinedRow :=
  rows.map fun r => ⟨r.1.locationID, r.1.zone, r.2.getD 0⟩

/-- The joined frame built at lines 113–121 of `create_taxi_map`:
left merge of zones with predictions, then `fillna(0)`
(the `to_crs` reprojection does not change rows and is dropped). -/
def create_taxi_map_zones (zones : List ZoneRow) (preds : List PredictionRow) :
    List JoinedRow :=
  fillna_zero (merge_left zones preds)

/-- With pairwise-distinct keys, a filter for one key keeps at most one row. -/
theorem filter_key_length_le_one (preds : List PredictionRow) (a : Int)
    (h : (preds.map (fun p => p.pickup_location_id)).Nodup) :
    (preds.filter (fun p => decide (p.pickup_location_id = a))).length ≤ 1 := by
  induction preds with
  | nil => simp
  | cons p ps ih =>
    rw [List.map_cons, List.nodup_cons] at h
    by_cases hp : p.pickup_location_id = a
    · have hempty : ps.filter (fun q => decide (q.pickup_location_id = a)) = [] := by
        rw [List.filter_eq_nil_iff]
        intro q hq hqa
        rw [decide_eq_true_eq] at hqa
        apply h.1
        rw [hp, ← hqa]
        exact List.mem_map_of_mem (fun r => r.pickup_location_id) hq
      simp [List.filter_cons, hp, hempty]
    · simpa [List.filter_cons, hp] using ih h.2

/-- A filter keeping at most one row is empty or a singleton. -/
theorem filter_key_cases (preds : List PredictionRow) (a : Int)
    (h : (preds.map (fun p => p.pickup_location_id)).Nodup) :
    preds.filter (fun p => decide (p.pickup_location_id = a)) = [] ∨
      ∃ p, preds.filter (fun p => decide (p.pickup_location_id = a)) = [p] := by
  have hlen := filter_key_length_le_one preds a h
  match hf : preds.filter (fun p => decide (p.pickup_location_id = a)) with
  | [] => exact Or.inl hf
  | [p] => exact Or.inr ⟨p, hf⟩
  | p :: q :: rest => rw [hf] at hlen; simp at hlen

/-- C1: the join keeps exactly one row per zone when the prediction table has
no duplicate zone identifier, every zone appears (in order), and a zone
without a matching prediction carries demand 0. -/
theorem create_taxi_map_join_left (zones : List ZoneRow) (preds : List PredictionRow)
    (h : (preds.map (fun p => p.pickup_location_id)).Nodup) :
    ((create_taxi_map_zones zones preds).map fun r => (r.locationID, r.zone)) =
      (zones.map fun z => (z.locationID, z.zone)) ∧
    ∀ r ∈ create_taxi_map_zones zones preds,
      (∀ p ∈ preds, p.pickup_location_id ≠ r.locationID) → r.predicted_demand = 0 := by
  constructor
  · induction zones with
    | nil => rfl
    | cons z zs ih =>
      have hstep : create_taxi_map_zones (z :: zs) preds =
          fillna_zero
            (if preds.filter (fun p => decide (p.pickup_location_id = z.locationID)) = []
             then [(z, none)]
             else (preds.filter
                (fun p => decide (p.pickup_location_id = z.locationID))).map
                  fun p => (z, some p.predicted_demand)) ++
            create_taxi_map_zones zs preds := by
        simp [create_taxi_map_zones, merge_left, List.flatMap_cons, fillna_zero]
      rcases filter_key_cases preds z.locationID h with hempty | ⟨p, hone⟩
      · rw [hstep, hempty, List.map_append]
        simp only [if_pos rfl]
        rw [List.map_cons, ih]
        rfl
      · rw [hstep, hone, List.map_append]
        rw [if_neg (by simp), List.map_cons, ih]
        rfl
  · intro r hr hnomatch
    rw [create_taxi_map_zones, fillna_zero, List.mem_map] at hr
    obtain ⟨rz, hm, hrz⟩ := hr
    rw [merge_left, List.mem_flatMap] at hm
    obtain ⟨z, hz, hmem⟩ := hm
    simp only [] at hmem
    by_cases hf : preds.filter (fun p => decide (p.pickup_location_id = z.locationID)) = []
    · rw [if_pos hf] at hmem
      simp only [List.mem_singleton] at hmem
      rw [← hrz, hmem]
      rfl
    · rw [if_neg hf, List.mem_map] at hmem
      obtain ⟨p, hp, hpz⟩ := hmem
      rw [List.mem_filter, decide_eq_true_eq] at hp
      exfalso
      apply hnomatch p hp.1
      rw [← hrz, ← hpz]
      simpa using hp.2

/-- C1 witness at a concrete input. -/
theorem create_taxi_map_join_left_witness :
    ((create_taxi_map_zones
        [⟨1, "Newark Airport"⟩, ⟨2, "Jamaica Bay"⟩]
        [⟨2, 7⟩]).map fun r => (r.locationID, r.zone)) =
      [((1 : Int), "Newark Airport"), ((2 : Int), "Jamaica Bay")] ∧
    ∀ r ∈ create_taxi_map_zones
        [⟨1, "Newark Airport"⟩, ⟨2, "Jamaica Bay"⟩] [⟨2, 7⟩],
      (∀ p ∈ ([⟨2, 7⟩] : List PredictionRow),
          p.pickup_location_id ≠ r.locationID) → r.predicted_demand = 0 :=
  create_taxi_map_join_left
    [⟨1, "Newark Airport"⟩, ⟨2, "Jamaica Bay"⟩] [⟨2, 7⟩] (by decide)

/-- C1 fails as stated for arbitrary prediction tables: a duplicated
prediction key duplicates the zone row, so the output no longer has exactly
one row per input zone. -/
theorem create_taxi_map_join_counterexample :
    ¬ ((create_taxi_map_zones [⟨1, "Newark Airport"⟩] [⟨1, 5⟩, ⟨1, 7⟩]).length =
        ([⟨1, "Newark Airport"⟩] : List ZoneRow).length) := by
  decide

/-- The seven hand-picked hues of line 125, pale yellow to dark red. -/
def colormap_colors : List String :=
  ["#FFEDA0", "#FED976", "#FEB24C", "#FD8D3C", "#FC4E2A", "#E31A1C", "#BD0026"]

/-- The branca `LinearColormap` built at lines 124–128: the hue list and the
domain `[vmin, vmax]` taken from the joined `predicted_demand` column. -/
structure Colormap where
  colors : List String
  vmin : ℚ
  vmax : ℚ
deriving DecidableEq, Repr

/-- The colormap index points: branca places `colors.length` evenly spaced
points from `vmin` to `vmax` (a linspace). -/
def Colormap.idx (cm : Colormap) (i : ℕ) : ℚ :=
  cm.vmin + (cm.vmax - cm.vmin) * i / ((cm.colors.length : ℚ) - 1)

/-- A fill color produced by the colormap: a base hue, or a linear blend of
two adjacent hues with interpolation parameter `p`. -/
inductive ColorVal where
  | base (hue : String)
  | blend (hue1 hue2 : String) (p : ℚ)
deriving DecidableEq, Repr

/-- Evaluation of the branca colormap at a demand value `x` — the
`colormap(float(predicted_demand))` call at line 133. Values at or below the
first index point get the first hue, values at or above the last index point
get the last hue, values strictly in between blend the two adjacent hues.
`none` embeds a raised exception (empty hue list, or a zero-width segment
hit by the interpolation division). -/
def Colormap.eval (cm : Colormap) (x : ℚ) : Option ColorVal :=
  match cm.colors with
  | [] => none
  | c :: cs =>
    if x ≤ cm.idx 0 then some (.base c)
    else if cm.idx (cm.colors.length - 1) ≤ x then some (.base (cs.getLastD c))
    else
      let i := ((List.range cm.colors.length).filter fun j => decide (cm.idx j < x)).length - 1
      let w := cm.idx (i + 1) - cm.idx i
      if w = 0 then none
      else some (.blend ((c :: cs).getD i c) ((c :: cs).getD (i + 1) c)
        ((x - cm.idx i) / w))

/-- The folium style dict built for one zone feature. -/
structure Style where
  fillColor : ColorVal
  color : String
  weight : ℚ
  fillOpacity : ℚ
deriving DecidableEq, Repr

/-- Lines 131–133: `style_function` evaluates the colormap at the feature's
`predicted_demand` and pairs it with the fixed stroke settings
(black outline, weight 1, fill opacity 0.7); `none` embeds a raised
exception from the colormap call. -/
def style_function (colormap : Colormap) (predicted_demand : ℚ) : Option Style :=
  (colormap.eval predicted_demand).map fun hue => ⟨hue, "black", 1, 7 / 10⟩

/-- pandas `Series.min` over a column, `none` embedding the `NaN` result on
an empty column. -/
def series_min (l : List ℚ) : Option ℚ :=
  match l with
  | [] => none
  | x :: xs => some (xs.foldl min x)

/-- pandas `Series.max` over a column, `none` on an empty column. -/
def series_max (l : List ℚ) : Option ℚ :=
  match l with
  | [] => none
  | x :: xs => some (xs.foldl max x)

/-- Lines 123–139 applied to the joined frame: build the colormap whose
domain is the min/max of the demand column and style every zone feature
with `style_function`. `none` embeds a raised exception while styling. An
empty joined frame styles no feature, so it renders an empty zone list (the
`NaN` colormap domain is never evaluated). The folium scaffolding (base
tiles, zoom, tooltip) carries no data and is dropped. -/
def render_choropleth (joined : List JoinedRow) :
    Option (List (JoinedRow × Style)) :=
  match series_min (joined.map fun r => r.predicted_demand),
        series_max (joined.map fun r => r.predicted_demand) with
  | some mn, some mx =>
    let colormap : Colormap := { colors := colormap_colors, vmin := mn, vmax := mx }
    joined.mapM fun r => (style_function colormap r.predicted_demand).map fun s => (r, s)
  | _, _ => some []

/-- `create_taxi_map` (lines 111–143): left-join the zones with the
prediction data and fill missing demand with 0 (lines 113–121), then render
the choropleth (lines 123–139). -/
def create_taxi_map (zones : List ZoneRow) (prediction_data : List PredictionRow) :
    Option (List (JoinedRow × Style)) :=
  render_choropleth (create_taxi_map_zones zones prediction_data)

/-- Folding `min` over a constant list leaves the start value. -/
theorem foldl_min_const (xs : List ℚ) (d : ℚ) (h : ∀ x ∈ xs, x = d) :
    xs.foldl min d = d := by
  induction xs with
  | nil => rfl
  | cons x xs ih =>
    have hx : x = d := h x (List.mem_cons_self x xs)
    rw [List.foldl_cons, hx, min_self]
    exact ih fun y hy => h y (List.mem_cons_of_mem x hy)

/-- Folding `max` over a constant list leaves the start value. -/
theorem foldl_max_const (xs : List ℚ) (d : ℚ) (h : ∀ x ∈ xs, x = d) :
    xs.foldl max d = d := by
  induction xs with
  | nil => rfl
  | cons x xs ih =>
    have hx : x = d := h x (List.mem_cons_self x xs)
    rw [List.foldl_cons, hx, max_self]
    exact ih fun y hy => h y (List.mem_cons_of_mem x hy)

/-- The min of a nonempty constant column is that constant. -/
theorem series_min_const (l : List ℚ) (d : ℚ) (hne : l ≠ [])
    (h : ∀ x ∈ l, x = d) : series_min l = some d := by
  match l with
  | [] => exact absurd rfl hne
  | x :: xs =>
    have hx : x = d := h x (List.mem_cons_self x xs)
    rw [series_min, hx]
    rw [foldl_min_const xs d fun y hy => h y (List.mem_cons_of_mem x hy)]

/-- The max of a nonempty constant column is that constant. -/
theorem series_max_const (l : List ℚ) (d : ℚ) (hne : l ≠ [])
    (h : ∀ x ∈ l, x = d) : series_max l = some d := by
  match l with
  | [] => exact absurd rfl hne
  | x :: xs =>
    have hx : x = d := h x (List.mem_cons_self x xs)
    rw [series_max, hx]
    rw [foldl_max_const xs d fun y hy => h y (List.mem_cons_of_mem x hy)]

/-- On a degenerate domain (`vmin = vmax = d`), evaluating the colormap at
`d` takes the first clamping branch and yields the first hue — no
interpolation division is reached. -/
theorem colormap_eval_degenerate (d : ℚ) :
    Colormap.eval ⟨colormap_colors, d, d⟩ d = some (.base "#FFEDA0") := by
  simp [Colormap.eval, Colormap.idx, colormap_colors]

/-- If every element maps to `some`, `mapM` returns `some` of the map. -/
theorem mapM_eq_some_map {α β : Type} (f : α → Option β) (g : α → β)
    (l : List α) (h : ∀ a ∈ l, f a = some (g a)) :
    l.mapM f = some (l.map g) := by
  induction l with
  | nil => rfl
  | cons x xs ih =>
    rw [List.mapM_cons, h x (List.mem_cons_self x xs),
      ih fun y hy => h y (List.mem_cons_of_mem x hy)]
    rfl

/-- Rendering a nonempty joined frame whose demands are all equal succeeds
and gives every zone the same style (first hue, fixed stroke settings). -/
theorem render_choropleth_const (joined : List JoinedRow) (d : ℚ)
    (hne : joined ≠ []) (h : ∀ r ∈ joined, r.predicted_demand = d) :
    render_choropleth joined =
      some (joined.map fun r =>
        (r, ⟨ColorVal.base "#FFEDA0", "black", 1, 7 / 10⟩)) := by
  have hmapne : joined.map (fun r => r.predicted_demand) ≠ [] := by
    simpa using hne
  have hconst : ∀ x ∈ joined.map fun r => r.predicted_demand, x = d := by
    intro x hx
    rw [List.mem_map] at hx
    obtain ⟨r, hr, hrx⟩ := hx
    rw [← hrx]
    exact h r hr
  rw [render_choropleth, series_min_const _ d hmapne hconst,
    series_max_const _ d hmapne hconst]
  apply mapM_eq_some_map
  intro r hr
  rw [style_function, h r hr, colormap_eval_degenerate]
  rfl

/-- C2: if every `predicted_demand` in a nonempty joined zone set is the
same value, `create_taxi_map`'s rendering raises no error and the style
function assigns every zone the same fill color. -/
theorem create_taxi_map_degenerate (zones : List ZoneRow)
    (prediction_data : List PredictionRow) (d : ℚ)
    (hne : create_taxi_map_zones zones prediction_data ≠ [])
    (h : ∀ r ∈ create_taxi_map_zones zones prediction_data,
      r.predicted_demand = d) :
    ∃ styled, create_taxi_map zones prediction_data = some styled ∧
      ∀ x ∈ styled, x.2.fillColor = ColorVal.base "#FFEDA0" := by
  refine ⟨_, render_choropleth_const _ d hne h, ?_⟩
  intro x hx
  rw [List.mem_map] at hx
  obtain ⟨r, hr, hrx⟩ := hx
  rw [← hrx]

/-- C2 witness: two zones, both with demand 0. -/
theorem create_taxi_map_degenerate_witness :
    ∃ styled,
      create_taxi_map [⟨1, "Newark Airport"⟩, ⟨2, "Jamaica Bay"⟩]
        [⟨1, 0⟩, ⟨2, 0⟩] = some styled ∧
      ∀ x ∈ styled, x.2.fillColor = ColorVal.base "#FFEDA0" :=
  create_taxi_map_degenerate [⟨1, "Newark Airport"⟩, ⟨2, "Jamaica Bay"⟩]
    [⟨1, 0⟩, ⟨2, 0⟩] 0 (by decide) (by decide)

/-- The filesystem state seen by `load_shape_data_file` (lines 40–64):
whether the data directory, the archive `taxi_zones.zip` and the extracted
shapefile `taxi_zones/taxi_zones.shp` exist, plus whether the stored
archive is a well-formed zip (meaningful only when it exists). -/
structure FS where
  dirExists : Bool
  zipExists : Bool
  zipValid : Bool
  shpExists : Bool
deriving DecidableEq, Repr

/-- Outcome of the `requests.get(url, timeout=10)` call at line 50:
a response whose body may or may not be a valid zip archive, a non-success
HTTP status (so `raise_for_status` raises), or a timeout. The latter two
are `requests.exceptions.RequestException`s. -/
inductive HttpResult where
  | ok (bodyIsValidZip : Bool)
  | httpError
  | timeoutError
deriving DecidableEq, Repr

/-- Observable side effects of one `load_shape_data_file` call: the timeout
(in seconds) of each HTTP GET performed, the files written, and the
directories created. -/
structure Effects where
  getRequests : List ℕ
  filesWritten : List String
  dirsCreated : List String
deriving DecidableEq, Repr

/-- The two exceptions raised by `load_shape_data_file`:
line 55 `Exception("Failed to download file: ...")` on a
`RequestException` (the spec's DownloadError), and line 62
`Exception("Failed to extract zip file: ...")` on a `BadZipFile`
(the spec's ExtractionError). -/
inductive LoadError where
  | downloadError
  | extractionError
deriving DecidableEq, Repr

/-- The extraction phase of `load_shape_data_file` (lines 57–62): if the
shapefile is absent, extract the archive, raising `extractionError` when
the stored archive is not a valid zip. -/
def extract_phase (fs : FS) (eff : Effects) : Effects × Except LoadError FS :=
  if fs.shpExists then (eff, .ok fs)
  else if fs.zipValid then
    ({ eff with
        filesWritten := eff.filesWritten ++ ["taxi_zones/taxi_zones.shp"],
        dirsCreated := eff.dirsCreated ++ ["taxi_zones"] },
      .ok { fs with shpExists := true })
  else (eff, .error .extractionError)

/-- `load_shape_data_file` (lines 40–64) as a filesystem/network state
machine. Line 43 creates the data directory if absent; lines 48–55 download
the archive with a 10-second timeout when `taxi_zones.zip` is absent,
raising `downloadError` on any `RequestException`; lines 57–62 extract when
the shapefile is absent. The final `gpd.read_file(...).to_crs(...)` (line
64) only reads, so the returned value is the filesystem state it reads
from. -/
def load_shape_data_file (fs : FS) (net : HttpResult) :
    Effects × Except LoadError FS :=
  let dirs : List String := if fs.dirExists then [] else ["data_dir"]
  let fs1 : FS := { fs with dirExists := true }
  if fs1.zipExists then
    extract_phase fs1 { getRequests := [], filesWritten := [], dirsCreated := dirs }
  else
    match net with
    | .ok valid =>
      extract_phase { fs1 with zipExists := true, zipValid := valid }
        { getRequests := [10], filesWritten := ["taxi_zones.zip"], dirsCreated := dirs }
    | .httpError =>
      ({ getRequests := [10], filesWritten := [], dirsCreated := dirs },
        .error .downloadError)
    | .timeoutError =>
      ({ getRequests := [10], filesWritten := [], dirsCreated := dirs },
        .error .downloadError)

/-- C3: with the archive and the extracted shapefile already present, a
call to `load_shape_data_file` performs no HTTP request, writes no file,
creates no directory, and leaves the filesystem unchanged — so repeated
calls after the first are idempotent on the filesystem. -/
theorem load_shape_data_file_idempotent (fs : FS) (net : HttpResult)
    (hdir : fs.dirExists = true) (hzip : fs.zipExists = true)
    (hshp : fs.shpExists = true) :
    load_shape_data_file fs net =
      ({ getRequests := [], filesWritten := [], dirsCreated := [] }, .ok fs) := by
  obtain ⟨d, z, v, s⟩ := fs
  cases hdir
  cases hzip
  cases hshp
  simp [load_shape_data_file, extract_phase]

/-- C3 witness: a fully populated cache directory, network unreachable. -/
theorem load_shape_data_file_idempotent_witness :
    load_shape_data_file ⟨true, true, true, true⟩ .httpError =
      ({ getRequests := [], filesWritten := [], dirsCreated := [] },
        .ok ⟨true, true, true, true⟩) :=
  load_shape_data_file_idempotent ⟨true, true, true, true⟩ .httpError rfl rfl rfl

/-- C5: when the archive is absent, `load_shape_data_file` performs exactly
one HTTP GET with the bounded 10-second timeout and raises the download
error on a non-success status or a timeout; when the archive is present
but corrupt and the shapefile is absent, it raises the extraction error. -/
theorem load_shape_data_file_errors (fs : FS) (net : HttpResult) :
    (fs.zipExists = false →
      (load_shape_data_file fs net).1.getRequests = [10] ∧
      ((net = .httpError ∨ net = .timeoutError) →
        (load_shape_data_file fs net).2 = .error .downloadError)) ∧
    (fs.zipExists = true → fs.shpExists = false → fs.zipValid = false →
      (load_shape_data_file fs net).2 = .error .extractionError) := by
  obtain ⟨d, z, v, s⟩ := fs
  constructor
  · intro hz
    cases hz
    cases net with
    | ok valid =>
      cases s <;> cases valid <;> simp [load_shape_data_file, extract_phase]
    | httpError => simp [load_shape_data_file]
    | timeoutError => simp [load_shape_data_file]
  · intro hz hs hv
    cases hz
    cases hs
    cases hv
    simp [load_shape_data_file, extract_phase]

/-- C5 witness: an absent archive with an HTTP failure downloads once and
fails; a present corrupt archive with an absent shapefile fails to
extract. -/
theorem load_shape_data_file_errors_witness :
    ((load_shape_data_file ⟨true, false, false, false⟩ .httpError).1.getRequests
        = [10] ∧
      (load_shape_data_file ⟨true, false, false, false⟩ .httpError).2 =
        .error .downloadError) ∧
    (load_shape_data_file ⟨true, true, false, false⟩ (.ok true)).2 =
      .error .extractionError := by
  have h1 := (load_shape_data_file_errors ⟨true, false, false, false⟩ .httpError).1 rfl
  have h2 := (load_shape_data_file_errors ⟨true, true, false, false⟩ (.ok true)).2
    rfl rfl rfl
  exact ⟨⟨h1.1, h1.2 (Or.inl rfl)⟩, h2⟩

/-- The hand-maintained `location_mapping` dict of lines 31–36, verbatim:
LocationID to borough name. The source comment
`# Add all remaining mappings...` marks it as knowingly incomplete. -/
def location_mapping : List (Int × String) :=
  [(1, "EWR"), (2, "Queens"), (3, "Bronx"), (4, "Manhattan"), (5, "Staten Island"),
   (6, "Staten Island"), (7, "Queens"), (8, "Queens"), (9, "Queens"), (10, "Queens"),
   (11, "Brooklyn"), (12, "Manhattan"), (13, "Manhattan"), (14, "Brooklyn"),
   (15, "Queens"), (132, "Queens")]

/-- Line 99: the LocationIDs of the selected borough, read off the
`location_df` built from `location_mapping` at line 38. -/
def borough_location_ids (selected_borough : String) : List Int :=
  (location_mapping.filter fun kv => decide (kv.2 = selected_borough)).map
    fun kv => kv.1

/-- Line 102: `predictions[predictions["pickup_location_id"].isin(location_ids)]`. -/
def filtered_predictions (predictions : List PredictionRow)
    (location_ids : List Int) : List PredictionRow :=
  predictions.filter fun p => decide (p.pickup_location_id ∈ location_ids)

/-- Insert a row into a list already sorted by descending demand, before
the first strictly smaller demand. -/
def insert_desc (p : PredictionRow) : List PredictionRow → List PredictionRow
  | [] => [p]
  | q :: qs =>
    if q.predicted_demand < p.predicted_demand then p :: q :: qs
    else q :: insert_desc p qs

/-- `sort_values("predicted_demand", ascending=False)` (lines 106 and 164)
as an insertion sort by descending demand. The source's sort is
deterministic; only tie order could differ from this model and no verified
property depends on tie order. -/
def sort_values_desc (l : List PredictionRow) : List PredictionRow :=
  l.foldr insert_desc []

/-- Line 106: the displayed table,
`filtered_predictions.sort_values(...).head(10)`. -/
def displayed_table (fp : List PredictionRow) : List PredictionRow :=
  (sort_values_desc fp).take 10

/-- Line 164: `top10`, the `pickup_location_id` column of
`filtered_predictions.sort_values(...).head(10)` as a list. -/
def top10 (fp : List PredictionRow) : List Int :=
  ((sort_values_desc fp).take 10).map fun p => p.pickup_location_id

/-- pandas `Series.mean` over a column, `none` embedding the `NaN` result
on an empty column (line 157). -/
def series_mean (l : List ℚ) : Option ℚ :=
  match l with
  | [] => none
  | x :: xs => some ((x :: xs).sum / (x :: xs).length)

/-- The demand column of a prediction table, as passed to the three
`st.metric` statistics at lines 157–161. -/
def demand_column (fp : List PredictionRow) : List ℚ :=
  fp.map fun p => p.predicted_demand

/-- C4: on predictions `[(1, 50), (2, 200), (3, 10)]` with a borough whose
zones are `{1, 3}`, the displayed top-10 table is exactly
`[(1, 50), (3, 10)]` in that order, and the statistics are mean 30,
max 50, min 10. -/
theorem example_borough_pipeline :
    displayed_table (filtered_predictions [⟨1, 50⟩, ⟨2, 200⟩, ⟨3, 10⟩] [1, 3]) =
      [⟨1, 50⟩, ⟨3, 10⟩] ∧
    series_mean (demand_column
      (filtered_predictions [⟨1, 50⟩, ⟨2, 200⟩, ⟨3, 10⟩] [1, 3])) = some 30 ∧
    series_max (demand_column
      (filtered_predictions [⟨1, 50⟩, ⟨2, 200⟩, ⟨3, 10⟩] [1, 3])) = some 50 ∧
    series_min (demand_column
      (filtered_predictions [⟨1, 50⟩, ⟨2, 200⟩, ⟨3, 10⟩] [1, 3])) = some 10 := by
  have hcol : demand_column
      (filtered_predictions [⟨1, 50⟩, ⟨2, 200⟩, ⟨3, 10⟩] [1, 3]) =
      [(50 : ℚ), 10] := by decide
  refine ⟨by decide, ?_, ?_, ?_⟩ <;> rw [hcol]
  · show some (((50 : ℚ) + (10 + 0)) / 2) = some 30
    norm_num
  · decide
  · decide

/-- Zones of the joined frame built from an empty prediction table all
carry the filled demand 0. -/
theorem create_taxi_map_zones_empty (zones : List ZoneRow) :
    create_taxi_map_zones zones [] =
      zones.map fun z => ⟨z.locationID, z.zone, 0⟩ := by
  induction zones with
  | nil => rfl
  | cons z zs ih =>
    simp only [create_taxi_map_zones, merge_left, fillna_zero] at ih ⊢
    rw [List.flatMap_cons, List.map_append, ih, List.map_cons]
    simp

/-- C7: when no prediction row matches the selected borough, the filtered
table and the displayed table are empty, all three statistics are
`NaN`/undefined without raising, and the map still renders (every zone
carries the filled demand 0, so none is highlighted). -/
theorem empty_borough_filter (predictions : List PredictionRow)
    (location_ids : List Int) (zones : List ZoneRow)
    (h : ∀ p ∈ predictions, p.pickup_location_id ∉ location_ids) :
    filtered_predictions predictions location_ids = [] ∧
    displayed_table (filtered_predictions predictions location_ids) = [] ∧
    series_mean (demand_column (filtered_predictions predictions location_ids))
      = none ∧
    series_max (demand_column (filtered_predictions predictions location_ids))
      = none ∧
    series_min (demand_column (filtered_predictions predictions location_ids))
      = none ∧
    (∀ r ∈ create_taxi_map_zones zones
        (filtered_predictions predictions location_ids),
      r.predicted_demand = 0) ∧
    (zones ≠ [] →
      ∃ styled, create_taxi_map zones
        (filtered_predictions predictions location_ids) = some styled) := by
  have hfe : filtered_predictions predictions location_ids = [] := by
    rw [filtered_predictions, List.filter_eq_nil_iff]
    intro p hp hmem
    rw [decide_eq_true_eq] at hmem
    exact h p hp hmem
  rw [hfe]
  have hjoin := create_taxi_map_zones_empty zones
  have hzero : ∀ r ∈ create_taxi_map_zones zones [], r.predicted_demand = 0 := by
    intro r hr
    rw [hjoin, List.mem_map] at hr
    obtain ⟨z, hz, hrz⟩ := hr
    rw [← hrz]
  refine ⟨rfl, rfl, rfl, rfl, rfl, hzero, ?_⟩
  intro hne
  have hjne : create_taxi_map_zones zones [] ≠ [] := by
    rw [hjoin]
    simpa using hne
  exact ⟨_, render_choropleth_const _ 0 hjne hzero⟩

/-- C7 witness: predictions only for zone 2, borough zones `{1, 3}`, two
shapefile zones. -/
theorem empty_borough_filter_witness :
    filtered_predictions [⟨2, 7⟩] [1, 3] = [] ∧
    displayed_table (filtered_predictions [⟨2, 7⟩] [1, 3]) = [] ∧
    series_mean (demand_column (filtered_predictions [⟨2, 7⟩] [1, 3])) = none ∧
    series_max (demand_column (filtered_predictions [⟨2, 7⟩] [1, 3])) = none ∧
    series_min (demand_column (filtered_predictions [⟨2, 7⟩] [1, 3])) = none ∧
    (∀ r ∈ create_taxi_map_zones
        [⟨1, "Newark Airport"⟩, ⟨2, "Jamaica Bay"⟩]
        (filtered_predictions [⟨2, 7⟩] [1, 3]),
      r.predicted_demand = 0) ∧
    (([⟨1, "Newark Airport"⟩, ⟨2, "Jamaica Bay"⟩] : List ZoneRow) ≠ [] →
      ∃ styled, create_taxi_map [⟨1, "Newark Airport"⟩, ⟨2, "Jamaica Bay"⟩]
        (filtered_predictions [⟨2, 7⟩] [1, 3]) = some styled) :=
  empty_borough_filter [⟨2, 7⟩] [1, 3]
    [⟨1, "Newark Airport"⟩, ⟨2, "Jamaica Bay"⟩] (by decide)

/-- C9: two prediction tables that agree on the sub-table of rows mapped to
the selected borough produce identical displayed tables, statistics, and
top-10 chart lists — the rendered outputs depend only on the selected
borough's rows. -/
theorem borough_noninterference (p1 p2 : List PredictionRow)
    (selected_borough : String)
    (h : p1.filter (fun p =>
        decide (p.pickup_location_id ∈ borough_location_ids selected_borough)) =
      p2.filter (fun p =>
        decide (p.pickup_location_id ∈ borough_location_ids selected_borough))) :
    displayed_table
        (filtered_predictions p1 (borough_location_ids selected_borough)) =
      displayed_table
        (filtered_predictions p2 (borough_location_ids selected_borough)) ∧
    series_mean (demand_column
        (filtered_predictions p1 (borough_location_ids selected_borough))) =
      series_mean (demand_column
        (filtered_predictions p2 (borough_location_ids selected_borough))) ∧
    series_max (demand_column
        (filtered_predictions p1 (borough_location_ids selected_borough))) =
      series_max (demand_column
        (filtered_predictions p2 (borough_location_ids selected_borough))) ∧
    series_min (demand_column
        (filtered_predictions p1 (borough_location_ids selected_borough))) =
      series_min (demand_column
        (filtered_predictions p2 (borough_location_ids selected_borough))) ∧
    top10 (filtered_predictions p1 (borough_location_ids selected_borough)) =
      top10 (filtered_predictions p2 (borough_location_ids selected_borough)) := by
  have hfp : filtered_predictions p1 (borough_location_ids selected_borough) =
      filtered_predictions p2 (borough_location_ids selected_borough) := h
  rw [hfp]
  exact ⟨rfl, rfl, rfl, rfl, rfl⟩

/-- C9 witness: the tables differ on a Manhattan row but agree on the
Bronx rows, so every Bronx-filtered output coincides. -/
theorem borough_noninterference_witness :
    displayed_table
        (filtered_predictions [⟨3, 5⟩, ⟨4, 9⟩] (borough_location_ids "Bronx")) =
      displayed_table
        (filtered_predictions [⟨3, 5⟩, ⟨4, 1000⟩] (borough_location_ids "Bronx")) ∧
    series_mean (demand_column
        (filtered_predictions [⟨3, 5⟩, ⟨4, 9⟩] (borough_location_ids "Bronx"))) =
      series_mean (demand_column
        (filtered_predictions [⟨3, 5⟩, ⟨4, 1000⟩] (borough_location_ids "Bronx"))) ∧
    series_max (demand_column
        (filtered_predictions [⟨3, 5⟩, ⟨4, 9⟩] (borough_location_ids "Bronx"))) =
      series_max (demand_column
        (filtered_predictions [⟨3, 5⟩, ⟨4, 1000⟩] (borough_location_ids "Bronx"))) ∧
    series_min (demand_column
        (filtered_predictions [⟨3, 5⟩, ⟨4, 9⟩] (borough_location_ids "Bronx"))) =
      series_min (demand_column
        (filtered_predictions [⟨3, 5⟩, ⟨4, 1000⟩] (borough_location_ids "Bronx"))) ∧
    top10 (filtered_predictions [⟨3, 5⟩, ⟨4, 9⟩] (borough_location_ids "Bronx")) =
      top10 (filtered_predictions [⟨3, 5⟩, ⟨4, 1000⟩] (borough_location_ids "Bronx")) :=
  borough_noninterference [⟨3, 5⟩, ⟨4, 9⟩] [⟨3, 5⟩, ⟨4, 1000⟩] "Bronx" (by decide)

/-- C10: the zone identifiers plotted by the supplementary-chart loop
(line 164) equal, element for element and in order, the
`pickup_location_id` column of the rows shown in the ranked table
(line 106), and there are at most 10 of them. -/
theorem top10_matches_table (fp : List PredictionRow) :
    top10 fp = (displayed_table fp).map (fun p => p.pickup_location_id) ∧
    (top10 fp).length ≤ 10 := by
  constructor
  · rfl
  · rw [top10, List.length_map, List.length_take]
    exact min_le_left 10 _

/-- C8 (code check): the `location_mapping` in the source covers only 16
zone identifiers — zone 16 (among many below 263) has no entry — so it does
not cover all 263 real-world zone identifiers, and it maps zone 1 to
"EWR", which is not one of the five boroughs. -/
theorem location_mapping_incomplete :
    (location_mapping.map fun kv => kv.1).length = 16 ∧
    (16 : Int) ∉ location_mapping.map (fun kv => kv.1) ∧
    ¬ (location_mapping.map fun kv => kv.1).length = 263 ∧
    ((1 : Int), "EWR") ∈ location_mapping ∧
    "EWR" ∉ ["Manhattan", "Brooklyn", "Queens", "Bronx", "Staten Island"] := by
  decide

/-- One row of the feature table returned by
`load_batch_of_features_from_store` (line 82); only the
`pickup_location_id` key is used by the frontend (lines 167–168), the
historical signal values are abstracted. -/
structure FeatureRow where
  pickup_location_id : Int
deriving DecidableEq, Repr

/-- An error that aborts the dashboard script: the shapefile step raising
one of `load_shape_data_file`'s exceptions, or a feature/prediction fetch
raising (the spec's UpstreamDataError). -/
inductive DashError where
  | shapefileError (e : LoadError)
  | upstreamDataError (msg : String)
deriving DecidableEq, Repr

/-- The display stages of the script, in source order: the three spinner
steps at lines 76–89, then the borough filter (lines 94–102), the table
(line 106), the map (lines 108–151), the statistics (lines 153–161) and
the per-zone charts (lines 163–170). -/
inductive Stage where
  | shapefileLoad
  | featureFetch
  | predictionFetch
  | boroughFilter
  | tableDisplay
  | mapRender
  | statsDisplay
  | chartsDisplay
deriving DecidableEq, Repr

/-- Everything the finished dashboard displays from data: the ranked table,
the three statistics, the rendered map, and the chart per top-10 zone. -/
structure DashboardOutput where
  tableRows : List PredictionRow
  avgRides : Option ℚ
  maxRides : Option ℚ
  minRides : Option ℚ
  mapObj : Option (List (JoinedRow × Style))
  chartZones : List Int
deriving DecidableEq, Repr

/-- `true` exactly on `Except.error`. -/
def isError {ε α : Type} : Except ε α → Bool
  | .error _ => true
  | .ok _ => false

/-- The dashboard script (lines 73–170) as a sequential run: each step
either completes and the next one runs, or raises, in which case the
uncaught exception aborts the script — streamlit then shows the error and
renders none of the remaining stages. The three fetch outcomes are inputs:
the shapefile step's result (4.1) and the two opaque store reads (4.2 of
the spec). The returned list is the stages that completed, in order. -/
def run_dashboard (shapefile : Except LoadError (List ZoneRow))
    (features : Except String (List FeatureRow))
    (predictions : Except String (List PredictionRow))
    (selected_borough : String) :
    List Stage × Except DashError DashboardOutput :=
  match shapefile with
  | .error e => ([], .error (.shapefileError e))
  | .ok zones =>
    match features with
    | .error m => ([.shapefileLoad], .error (.upstreamDataError m))
    | .ok _features =>
      match predictions with
      | .error m => ([.shapefileLoad, .featureFetch], .error (.upstreamDataError m))
      | .ok preds =>
        let location_ids := borough_location_ids selected_borough
        let fp := filtered_predictions preds location_ids
        ([.shapefileLoad, .featureFetch, .predictionFetch, .boroughFilter,
          .tableDisplay, .mapRender, .statsDisplay, .chartsDisplay],
          .ok {
            tableRows := displayed_table fp,
            avgRides := series_mean (demand_column fp),
            maxRides := series_max (demand_column fp),
            minRides := series_min (demand_column fp),
            mapObj := create_taxi_map zones fp,
            chartZones := top10 fp })

/-- C6: if the shapefile step or either store fetch fails, the run ends in
a surfaced error and none of the later display stages (borough filter,
table, map, statistics, charts) executes. -/
theorem run_dashboard_aborts_on_error
    (shapefile : Except LoadError (List ZoneRow))
    (features : Except String (List FeatureRow))
    (predictions : Except String (List PredictionRow))
    (selected_borough : String)
    (h : isError shapefile = true ∨ isError features = true ∨
      isError predictions = true) :
    isError (run_dashboard shapefile features predictions selected_borough).2
      = true ∧
    ∀ s ∈ ([.boroughFilter, .tableDisplay, .mapRender, .statsDisplay,
        .chartsDisplay] : List Stage),
      s ∉ (run_dashboard shapefile features predictions selected_borough).1 := by
  match shapefile with
  | .error e => exact ⟨rfl, by intro s hs; simp [run_dashboard]⟩
  | .ok zones =>
    match features with
    | .error m =>
      refine ⟨rfl, ?_⟩
      intro s hs
      simp only [List.mem_cons, List.not_mem_nil, or_false] at hs
      rcases hs with rfl | rfl | rfl | rfl | rfl <;> simp [run_dashboard]
    | .ok fs =>
      match predictions with
      | .error m =>
        refine ⟨rfl, ?_⟩
        intro s hs
        simp only [List.mem_cons, List.not_mem_nil, or_false] at hs
        rcases hs with rfl | rfl | rfl | rfl | rfl <;> simp [run_dashboard]
      | .ok ps =>
        rcases h with h | h | h <;> simp [isError] at h

/-- C6 witness: a failing prediction fetch with everything else in hand. -/
theorem run_dashboard_aborts_on_error_witness :
    isError (run_dashboard (.ok [⟨1, "Newark Airport"⟩]) (.ok [⟨1⟩])
        (.error "connection refused") "Queens").2 = true ∧
    ∀ s ∈ ([.boroughFilter, .tableDisplay, .mapRender, .statsDisplay,
        .chartsDisplay] : List Stage),
      s ∉ (run_dashboard (.ok [⟨1, "Newark Airport"⟩]) (.ok [⟨1⟩])
        (.error "connection refused") "Queens").1 :=
  run_dashboard_aborts_on_error (.ok [⟨1, "Newark Airport"⟩]) (.ok [⟨1⟩])
    (.error "connection refused") "Queens" (Or.inr (Or.inr rfl))

end TaxiFrontend
